import Mathlib

/-!
A shallow embedding of `src/smart.c` (SMART HDD vs Flash detection over USB
ATA passthrough), together with theorems checking the natural-language
specification of the repository against it.

The C file is embedded function by function: `GetAtaDirection`,
`ScsiPassthroughDirect` (its up-front validation plus an abstract completion
of the `DeviceIoControl` call), the five bridge encoders, the `Identify`
probe loop and the `IsHDD` scorer.  Machine integers are modelled as `Nat`
with an explicit `% 256` at the points where the C code casts to `uint8_t`;
C strings are modelled as their byte lists (no interior NUL), and reading one
position past the end yields the NUL terminator `0`, exactly as a read of the
terminating byte of a C string does.  Numeric constants declared in
`smart.h` and the Windows headers (which are not part of `src/`) are
transcribed from the ATA/SCSI/Windows definitions the spec refers to.
-/

namespace Smart

/-- Modelled from the spec: Windows `SCSI_IOCTL_DATA_OUT` (host-to-device),
declared outside `src/`. -/
def SCSI_IOCTL_DATA_OUT : Nat := 0

/-- Modelled from the spec: Windows `SCSI_IOCTL_DATA_IN` (device-to-host). -/
def SCSI_IOCTL_DATA_IN : Nat := 1

/-- Modelled from the spec: Windows `SCSI_IOCTL_DATA_UNSPECIFIED`. -/
def SCSI_IOCTL_DATA_UNSPECIFIED : Nat := 2

/-- Modelled from the spec: `smart.h` alias for the data-out direction. -/
def ATA_PASSTHROUGH_DATA_OUT : Nat := SCSI_IOCTL_DATA_OUT

/-- Modelled from the spec: `smart.h` alias for the data-in direction. -/
def ATA_PASSTHROUGH_DATA_IN : Nat := SCSI_IOCTL_DATA_IN

/-- Modelled from the spec: `smart.h` alias for the no-transfer direction. -/
def ATA_PASSTHROUGH_DATA_NONE : Nat := SCSI_IOCTL_DATA_UNSPECIFIED

/-- Modelled from the spec: ATA DATA SET MANAGEMENT opcode (`smart.h`). -/
def ATA_DATA_SET_MANAGEMENT : Nat := 0x06

/-- Modelled from the spec: ATA READ LOG EXT opcode (`smart.h`). -/
def ATA_READ_LOG_EXT : Nat := 0x2f

/-- Modelled from the spec: ATA SMART opcode (`smart.h`). -/
def ATA_SMART_CMD : Nat := 0xb0

/-- Modelled from the spec: ATA IDENTIFY PACKET DEVICE opcode (`smart.h`). -/
def ATA_IDENTIFY_PACKET_DEVICE : Nat := 0xa1

/-- Modelled from the spec: ATA IDENTIFY DEVICE opcode (`smart.h`). -/
def ATA_IDENTIFY_DEVICE : Nat := 0xec

/-- Modelled from the spec: SMART RETURN STATUS feature sub-code (`smart.h`). -/
def ATA_SMART_STATUS : Nat := 0xda

/-- Modelled from the spec: SMART WRITE LOG SECTOR feature sub-code. -/
def ATA_SMART_WRITE_LOG_SECTOR : Nat := 0xd6

/-- Modelled from the spec: SAT ATA PASS-THROUGH(12) CDB opcode 0xA1. -/
def SAT_ATA_PASSTHROUGH_12 : Nat := 0xa1

/-- Modelled from the spec: JMicron vendor passthrough CDB opcode 0xDF. -/
def USB_JMICRON_ATA_PASSTHROUGH : Nat := 0xdf

/-- Modelled from the spec: SunPlus vendor passthrough CDB opcode 0xF8. -/
def USB_SUNPLUS_ATA_PASSTHROUGH : Nat := 0xf8

/-- Modelled from the spec: Cypress vendor passthrough CDB opcode 0x24. -/
def USB_CYPRESS_ATA_PASSTHROUGH : Nat := 0x24

/-- Modelled from the spec: shift by 9 turns a byte count into 512-byte
sectors (`smart.h` `SECTOR_SIZE_SHIFT_BIT`). -/
def SECTOR_SIZE_SHIFT_BIT : Nat := 9

/-- Modelled from the spec: Windows `DRIVE_FIXED` drive-type value. -/
def DRIVE_FIXED : Nat := 3

/-- Modelled from the spec: Windows `DRIVE_REMOVABLE` drive-type value. -/
def DRIVE_REMOVABLE : Nat := 2

/-- Modelled from the spec: Windows `ERROR_SEM_TIMEOUT` system error code. -/
def ERROR_SEM_TIMEOUT : Nat := 121

/-- Modelled from the spec: Windows `ERROR_INVALID_PARAMETER` error code. -/
def ERROR_INVALID_PARAMETER : Nat := 87

/-- Modelled from the spec: `SPT_SUCCESS` is 0; the comment above
`ScsiPassthroughDirect` in `smart.c` fixes 0 = success, positive = SCSI
status, negative = transport-level error.  The `SPT_ERROR_*` codes below are
the distinct negative codes declared in `smart.h`. -/
def SPT_SUCCESS : Int := 0

/-- Modelled from the spec: distinct negative error code (`smart.h`). -/
def SPT_ERROR_CDB_LENGTH : Int := -1

/-- Modelled from the spec: distinct negative error code (`smart.h`). -/
def SPT_ERROR_BUFFER : Int := -2

/-- Modelled from the spec: distinct negative error code (`smart.h`). -/
def SPT_ERROR_DIRECTION : Int := -3

/-- Modelled from the spec: distinct negative error code (`smart.h`). -/
def SPT_ERROR_EXTENDED_CDB : Int := -4

/-- Modelled from the spec: distinct negative error code (`smart.h`). -/
def SPT_ERROR_CDB_OPCODE : Int := -5

/-- Modelled from the spec: distinct negative error code (`smart.h`). -/
def SPT_ERROR_TIMEOUT : Int := -6

/-- Modelled from the spec: distinct negative error code (`smart.h`). -/
def SPT_ERROR_INVALID_PARAMETER : Int := -7

/-- Modelled from the spec: distinct negative error code (`smart.h`). -/
def SPT_ERROR_UNKNOWN_ERROR : Int := -99

/-- Embeds `GetAtaDirection` from `smart.c` (lines 40-60): the direction
resolver.  The `switch` falls through from the `ATA_SMART_CMD` case into the
`ATA_DATA_SET_MANAGEMENT` case when `smart_out` holds. -/
def GetAtaDirection (AtaCmd Features : Nat) : Nat :=
  let smart_out : Prop := AtaCmd = ATA_SMART_CMD ∧
    (Features = ATA_SMART_STATUS ∨ Features = ATA_SMART_WRITE_LOG_SECTOR)
  if AtaCmd = ATA_IDENTIFY_DEVICE ∨ AtaCmd = ATA_READ_LOG_EXT then
    ATA_PASSTHROUGH_DATA_IN
  else if AtaCmd = ATA_SMART_CMD then
    (if ¬ smart_out then ATA_PASSTHROUGH_DATA_IN else ATA_PASSTHROUGH_DATA_OUT)
  else if AtaCmd = ATA_DATA_SET_MANAGEMENT then
    ATA_PASSTHROUGH_DATA_OUT
  else
    ATA_PASSTHROUGH_DATA_NONE

/-- Abstract completion of the `DeviceIoControl` call in
`ScsiPassthroughDirect`: either the ioctl returned TRUE (`ok`, with the SCSI
status byte the device reported) or FALSE (`fail`, with the SCSI status byte
and the `GetLastError` value). -/
inductive IoOutcome where
  | ok (scsiStatus : Nat)
  | fail (scsiStatus : Nat) (lastError : Nat)

/-- Embeds the post-ioctl result mapping of `ScsiPassthroughDirect`
(`smart.c` lines 143-162). -/
def ioComplete : IoOutcome → Int
  | IoOutcome.ok s => if s = 0 then SPT_SUCCESS else (s : Int)
  | IoOutcome.fail s e =>
      if s ≠ 0 then (s : Int)
      else if e = ERROR_SEM_TIMEOUT then SPT_ERROR_TIMEOUT
      else if e = ERROR_INVALID_PARAMETER then SPT_ERROR_INVALID_PARAMETER
      else SPT_ERROR_UNKNOWN_ERROR

/-- Embeds `ScsiPassthroughDirect` from `smart.c` (lines 103-164).  The CDB
is a byte list; `dataBufferAddr` is the numeric address of the transfer
buffer (only its 16-byte alignment is inspected); the abstract device
interaction is the `io : IoOutcome` parameter, reached only when every
up-front validation check passes.  `sizeof(sptdwb.sptd.Cdb)` is 16. -/
def ScsiPassthroughDirect (Cdb : List Nat) (CdbLen : Nat) (Direction : Nat)
    (dataBufferAddr BufLen : Nat) (io : IoOutcome) : Int :=
  if CdbLen = 0 ∨ CdbLen > 16 then SPT_ERROR_CDB_LENGTH
  else if dataBufferAddr % 0x10 ≠ 0 ∨ BufLen > 0xFFFF then SPT_ERROR_BUFFER
  else if Direction > SCSI_IOCTL_DATA_UNSPECIFIED then SPT_ERROR_DIRECTION
  else if Cdb.headD 0 = 0x7e ∨ Cdb.headD 0 = 0x7f then SPT_ERROR_EXTENDED_CDB
  else if Cdb.headD 0 ≥ 0xc0 ∧ Cdb.headD 0 ≠ USB_JMICRON_ATA_PASSTHROUGH
       ∧ Cdb.headD 0 ≠ USB_SUNPLUS_ATA_PASSTHROUGH then SPT_ERROR_CDB_OPCODE
  else ioComplete io

/-- Embeds `ATA_PASSTHROUGH_CMD` (declared in `smart.h`, used throughout
`smart.c`): fields `AtaCmd`, `Features`, `Lba_low`, `Lba_mid`, `Lba_high`,
`Device`, in that order. -/
structure ATA_PASSTHROUGH_CMD where
  AtaCmd : Nat
  Features : Nat
  Lba_low : Nat
  Lba_mid : Nat
  Lba_high : Nat
  Device : Nat

/-- The 12-byte CDB built by `SatAtaPassthrough` (`smart.c` lines 171-212).
`extend = 0`, `ck_cond = 0`, `byte_block = 1` as in the source; `protocol`,
`t_length` and `t_dir` are adjusted only when `BufLen` is nonzero. -/
def satCdb (Command : ATA_PASSTHROUGH_CMD) (BufLen : Nat) : List Nat :=
  let Direction := GetAtaDirection Command.AtaCmd Command.Features
  let extend := 0
  let ck_cond := 0
  let byte_block := 1
  let protocol :=
    if BufLen ≠ 0 ∧ Direction = ATA_PASSTHROUGH_DATA_IN then 4
    else if BufLen ≠ 0 ∧ Direction = ATA_PASSTHROUGH_DATA_OUT then 5
    else 3
  let t_length :=
    if BufLen ≠ 0 ∧ (Direction = ATA_PASSTHROUGH_DATA_IN ∨
        Direction = ATA_PASSTHROUGH_DATA_OUT) then 2
    else 0
  let t_dir := if BufLen ≠ 0 ∧ Direction = ATA_PASSTHROUGH_DATA_OUT then 0 else 1
  [SAT_ATA_PASSTHROUGH_12,
   (protocol <<< 1) ||| extend,
   (ck_cond <<< 5) ||| (t_dir <<< 3) ||| (byte_block <<< 2) ||| t_length,
   Command.Features,
   (BufLen >>> SECTOR_SIZE_SHIFT_BIT) % 256,
   Command.Lba_low,
   Command.Lba_mid,
   Command.Lba_high,
   Command.Device,
   Command.AtaCmd,
   0, 0]

/-- Embeds `SatAtaPassthrough` (`smart.c` lines 169-215): rejects transfer
lengths that are not whole sectors before any device interaction, otherwise
sends the 12-byte SAT CDB through the transport. -/
def SatAtaPassthrough (Command : ATA_PASSTHROUGH_CMD)
    (dataBufferAddr BufLen : Nat) (io : IoOutcome) : Int :=
  if BufLen % 512 ≠ 0 then SPT_ERROR_BUFFER
  else
    ScsiPassthroughDirect (satCdb Command BufLen) 12
      (GetAtaDirection Command.AtaCmd Command.Features) dataBufferAddr BufLen io

/-- The 14-byte CDB built by `_UsbJMPLAtaPassthrough` (`smart.c` lines
221-239), shared by the JMicron and Prolific encoders; bytes 12-13 are the
fixed Prolific PL3507 trailer. -/
def jmplCdb (Command : ATA_PASSTHROUGH_CMD) (BufLen : Nat) : List Nat :=
  let Direction := GetAtaDirection Command.AtaCmd Command.Features
  [USB_JMICRON_ATA_PASSTHROUGH,
   if BufLen ≠ 0 ∧ Direction = ATA_PASSTHROUGH_DATA_OUT then 0x00 else 0x10,
   0,
   (BufLen >>> 8) % 256,
   BufLen % 256,
   Command.Features,
   (BufLen >>> SECTOR_SIZE_SHIFT_BIT) % 256,
   Command.Lba_low,
   Command.Lba_mid,
   Command.Lba_high,
   Command.Device,
   Command.AtaCmd,
   0x06,
   0x7b]

/-- Embeds `_UsbJMPLAtaPassthrough` (`smart.c` lines 218-242): the shared
JMicron/Prolific encoder; the Prolific variant sends the same CDB with its
length shortened by the 2 trailer bytes. -/
def UsbJMPLAtaPassthrough (Command : ATA_PASSTHROUGH_CMD)
    (dataBufferAddr BufLen : Nat) (io : IoOutcome) (prolific : Bool) : Int :=
  ScsiPassthroughDirect (jmplCdb Command BufLen)
    (14 - (if prolific then 2 else 0))
    (GetAtaDirection Command.AtaCmd Command.Features) dataBufferAddr BufLen io

/-- Embeds `UsbJmicronAtaPassthrough` (`smart.c` lines 244-247). -/
def UsbJmicronAtaPassthrough (Command : ATA_PASSTHROUGH_CMD)
    (dataBufferAddr BufLen : Nat) (io : IoOutcome) : Int :=
  UsbJMPLAtaPassthrough Command dataBufferAddr BufLen io false

/-- Embeds `UsbProlificAtaPassthrough` (`smart.c` lines 250-253). -/
def UsbProlificAtaPassthrough (Command : ATA_PASSTHROUGH_CMD)
    (dataBufferAddr BufLen : Nat) (io : IoOutcome) : Int :=
  UsbJMPLAtaPassthrough Command dataBufferAddr BufLen io true

/-- The 12-byte CDB built by `UsbSunPlusAtaPassthrough` (`smart.c` lines
258-278). -/
def sunPlusCdb (Command : ATA_PASSTHROUGH_CMD) (BufLen : Nat) : List Nat :=
  let Direction := GetAtaDirection Command.AtaCmd Command.Features
  [USB_SUNPLUS_ATA_PASSTHROUGH,
   0,
   0x22,
   if BufLen ≠ 0 ∧ Direction = ATA_PASSTHROUGH_DATA_IN then 0x10
   else if BufLen ≠ 0 ∧ Direction = ATA_PASSTHROUGH_DATA_OUT then 0x11
   else 0,
   (BufLen >>> SECTOR_SIZE_SHIFT_BIT) % 256,
   Command.Features,
   (BufLen >>> SECTOR_SIZE_SHIFT_BIT) % 256,
   Command.Lba_low,
   Command.Lba_mid,
   Command.Lba_high,
   Command.Device ||| 0xa0,
   Command.AtaCmd]

/-- Embeds `UsbSunPlusAtaPassthrough` (`smart.c` lines 256-281). -/
def UsbSunPlusAtaPassthrough (Command : ATA_PASSTHROUGH_CMD)
    (dataBufferAddr BufLen : Nat) (io : IoOutcome) : Int :=
  ScsiPassthroughDirect (sunPlusCdb Command BufLen) 12
    (GetAtaDirection Command.AtaCmd Command.Features) dataBufferAddr BufLen io

/-- The 16-byte CDB built by `UsbCypressAtaPassthrough` (`smart.c` lines
287-305); byte 3 is `0xff - 1 - 0x40 = 0xbe`. -/
def cypressCdb (Command : ATA_PASSTHROUGH_CMD) (BufLen : Nat) : List Nat :=
  [USB_CYPRESS_ATA_PASSTHROUGH,
   USB_CYPRESS_ATA_PASSTHROUGH,
   if Command.AtaCmd = ATA_IDENTIFY_DEVICE ∨
      Command.AtaCmd = ATA_IDENTIFY_PACKET_DEVICE then 1 <<< 7 else 0,
   0xff - (1 <<< 0) - (1 <<< 6),
   1,
   0,
   Command.Features,
   (BufLen >>> SECTOR_SIZE_SHIFT_BIT) % 256,
   Command.Lba_low,
   Command.Lba_mid,
   Command.Lba_high,
   Command.Device,
   Command.AtaCmd,
   0, 0, 0]

/-- Embeds `UsbCypressAtaPassthrough` (`smart.c` lines 285-308). -/
def UsbCypressAtaPassthrough (Command : ATA_PASSTHROUGH_CMD)
    (dataBufferAddr BufLen : Nat) (io : IoOutcome) : Int :=
  ScsiPassthroughDirect (cypressCdb Command BufLen) 16
    (GetAtaDirection Command.AtaCmd Command.Features) dataBufferAddr BufLen io

/-- The five bridge kinds of the `pt` table (`smart.c` lines 311-317). -/
inductive Bridge where
  | sat
  | jmicron
  | prolific
  | sunplus
  | cypress
deriving DecidableEq

/-- Embeds the `pt` table (`smart.c` lines 311-317): the bridges tried by
`Identify`, in order, with their log names. -/
def pt : List (Bridge × String) :=
  [(Bridge.sat, "SAT"),
   (Bridge.jmicron, "JMicron"),
   (Bridge.prolific, "Prolific"),
   (Bridge.sunplus, "SunPlus"),
   (Bridge.cypress, "Cypress")]

/-- The probing order of `Identify`: the bridges of `pt` in table order. -/
def ptOrder : List Bridge := pt.map Prod.fst

/-- The `ATA_PASSTHROUGH_CMD` that `Identify` builds (`smart.c` lines
321-325): zero-initialised, then `AtaCmd = ATA_IDENTIFY_DEVICE`. -/
def identCommand : ATA_PASSTHROUGH_CMD :=
  ⟨ATA_IDENTIFY_DEVICE, 0, 0, 0, 0, 0⟩

/-- Dispatches a bridge kind to its encoder, as `pt[i].fn(hPhysical,
&Command, idd, sizeof(IDENTIFY_DEVICE_DATA), SPT_TIMEOUT_VALUE)` does in
`Identify`: the command is `identCommand`, the buffer length is 512, and
`io b` is the device's abstract response to bridge `b`'s request. -/
def ptResult (io : Bridge → IoOutcome) (dataBufferAddr : Nat) : Bridge → Int
  | Bridge.sat => SatAtaPassthrough identCommand dataBufferAddr 512 (io Bridge.sat)
  | Bridge.jmicron =>
      UsbJmicronAtaPassthrough identCommand dataBufferAddr 512 (io Bridge.jmicron)
  | Bridge.prolific =>
      UsbProlificAtaPassthrough identCommand dataBufferAddr 512 (io Bridge.prolific)
  | Bridge.sunplus =>
      UsbSunPlusAtaPassthrough identCommand dataBufferAddr 512 (io Bridge.sunplus)
  | Bridge.cypress =>
      UsbCypressAtaPassthrough identCommand dataBufferAddr 512 (io Bridge.cypress)

/-- Modelled from the spec: the SMART-capability bit `idd->
CommandSetSupport.SmartCommands` of the 512-byte `IDENTIFY_DEVICE_DATA`
structure (declared in the Windows ATA headers, not in `src/`): bit 0 of
identify word 82, i.e. bit 0 of byte offset 164 of the little-endian
512-byte buffer. -/
def smartBit (buf : List Nat) : Bool := buf.getD 164 0 % 2 == 1

/-- What `Identify` concludes about a device: the three mutually exclusive
outcomes of its reporting branches (`smart.c` lines 336-349): SMART support
detected, no SMART support, or no bridge encoding worked at all. -/
inductive SmartReport where
  | capable
  | notCapable
  | unknown
deriving DecidableEq

/-- Embeds the probe loop of `Identify` (`smart.c` lines 334-349) over a
suffix of the bridge table: returns the list of bridges actually invoked
(in order), the bridge that first returned `SPT_SUCCESS` (if any), and the
SMART report derived from the identify buffer. -/
def identifyLoop (res : Bridge → Int) (buf : List Nat) :
    List Bridge → List Bridge × Option Bridge × SmartReport
  | [] => ([], none, SmartReport.unknown)
  | b :: rest =>
    if res b = SPT_SUCCESS then
      ([b], some b,
       if smartBit buf then SmartReport.capable else SmartReport.notCapable)
    else
      let r := identifyLoop res buf rest
      (b :: r.1, r.2.1, r.2.2)

/-- Embeds `Identify` (`smart.c` lines 319-353): probe the bridges of `pt`
in order with the IDENTIFY DEVICE command and interpret the result.  `buf`
is the 512-byte identify buffer the successful transfer filled. -/
def Identify (io : Bridge → IoOutcome) (dataBufferAddr : Nat) (buf : List Nat) :
    List Bridge × Option Bridge × SmartReport :=
  identifyLoop (ptResult io dataBufferAddr) buf ptOrder

/-- ASCII lower-casing of one byte, as `_strnicmp` applies to each compared
character. -/
def toLowerA (c : Nat) : Nat := if 65 ≤ c ∧ c ≤ 90 then c + 32 else c

/-- The byte list of a Lean string literal, standing for the bytes of the
corresponding C string (terminating NUL not included; all table entries and
tested inputs are ASCII). -/
def strBytes (s : String) : List Nat := s.data.map Char.toNat

/-- Reading byte `i` of a NUL-terminated C string modelled as a byte list:
positions past the end read as the terminator 0. -/
def charAt (s : List Nat) (i : Nat) : Nat := s.getD i 0

/-- Whether `_strnicmp(a, b, n) == 0`: the first `n` bytes agree up to ASCII
case (positions past a string's end compare as the NUL terminator; the
strings involved contain no interior NUL, so this matches the C semantics of
stopping at the first difference or NUL). -/
def strnicmpIsEq (a b : List Nat) (n : Nat) : Bool :=
  (List.range n).all fun i => toLowerA (charAt a i) == toLowerA (charAt b i)

/-- Embeds the `manufacturer_str` table (`smart.c` lines 417-432). -/
def manufacturer_str : List (String × Int) :=
  [("HP ", 10),
   ("ST#", 10),
   ("MX#", 10),
   ("WDC", 10),
   ("IBM", 10),
   ("STM#", 10),
   ("HTS#", 10),
   ("MAXTOR", 10),
   ("HITACHI", 10),
   ("SEAGATE", 10),
   ("SAMSUNG", 10),
   ("FUJITSU", 10),
   ("TOSHIBA", 10),
   ("QUANTUM", 10)]

/-- Embeds the `manufacturer_vid` table (`smart.c` lines 435-440). -/
def manufacturer_vid : List (Nat × Int) :=
  [(0x04b4, 10),
   (0x067b, 10),
   (0x0bc2, 10),
   (0x152d, 10)]

/-- Embeds the manufacturer-string loop of `IsHDD` (`smart.c` lines
490-500): walk the table in order; `break` with score 0 at the first entry
longer than the input; on a match add the entry's score and `break`.  A
wildcard entry (ending in `'#'`, byte 35) compares one byte fewer and then
requires `strid[mlen]` to be an ASCII digit, exactly as the source line 496
does (note the index is `mlen`, not `mlen - 1`). -/
def strScoreLoop (strid : List Nat) (ilen : Nat) : List (String × Int) → Int
  | [] => 0
  | (name, sc) :: rest =>
    let nameBytes := strBytes name
    let mlen := nameBytes.length
    if mlen > ilen then 0
    else
      let wc := charAt nameBytes (mlen - 1) == 35
      if strnicmpIsEq strid nameBytes (mlen - (if wc then 1 else 0)) &&
         (!wc || (decide (48 ≤ charAt strid mlen) && decide (charAt strid mlen ≤ 57))) then
        sc
      else
        strScoreLoop strid ilen rest

/-- Embeds the vendor-ID loop of `IsHDD` (`smart.c` lines 502-507). -/
def vidScoreLoop (vid : Nat) : List (Nat × Int) → Int
  | [] => 0
  | (v, sc) :: rest => if vid = v then sc else vidScoreLoop vid rest

/-- Embeds `IsHDD` (`smart.c` lines 480-512).  `pid` is accepted and, as in
the source, never read. -/
def IsHDD (drive_type vid pid : Nat) (strid : String) : Int :=
  let s := strBytes strid
  (if drive_type = DRIVE_FIXED then 3 else 0)
    + strScoreLoop s s.length manufacturer_str
    + vidScoreLoop vid manufacturer_vid

/-- A 512-byte identify buffer whose SMART-capability bit (bit 0 of byte
164) is set and every other byte is zero. -/
def bufSmartSet : List Nat := List.replicate 164 0 ++ 1 :: List.replicate 347 0

set_option maxRecDepth 4096

/-- Helper: when every bridge of the suffix fails, `Identify`'s loop
exhausts it, invoking every encoder and reporting `unknown`. -/
theorem identifyLoop_all_fail (res : Bridge → Int) (buf : List Nat) :
    ∀ l : List Bridge, (∀ b ∈ l, res b ≠ SPT_SUCCESS) →
      identifyLoop res buf l = (l, none, SmartReport.unknown) := by
  intro l
  induction l with
  | nil => intro _; rfl
  | cons b rest ih =>
      intro h
      have hb : res b ≠ SPT_SUCCESS := h b (by simp)
      simp [identifyLoop, hb, ih (fun x hx => h x (by simp [hx]))]

/-- Helper: when some bridge of the suffix succeeds, the loop's report is
read off the SMART-capability bit of the identify buffer. -/
theorem identifyLoop_report_of_success (res : Bridge → Int) (buf : List Nat) :
    ∀ l : List Bridge, (∃ b ∈ l, res b = SPT_SUCCESS) →
      (identifyLoop res buf l).2.2 =
        (if smartBit buf then SmartReport.capable else SmartReport.notCapable) := by
  intro l
  induction l with
  | nil => rintro ⟨b, hb, -⟩; simp at hb
  | cons b rest ih =>
      rintro ⟨c, hc, hcs⟩
      by_cases hb : res b = SPT_SUCCESS
      · simp [identifyLoop, hb]
      · have hcr : c ∈ rest := by
          rcases List.mem_cons.mp hc with h | h
          · exact absurd (h ▸ hcs) hb
          · exact h
        simp [identifyLoop, hb, ih ⟨c, hcr, hcs⟩]

/-- Helper: if the bridge at position `k` is the first to succeed, the loop
invokes exactly the bridges up to and including position `k` and reports
that bridge as the successful one. -/
theorem identifyLoop_first (res : Bridge → Int) (buf : List Nat) :
    ∀ (l : List Bridge) (k : Nat) (hk : k < l.length),
      res (l.get ⟨k, hk⟩) = SPT_SUCCESS →
      (∀ (j : Nat) (hj : j < k), res (l.get ⟨j, hj.trans hk⟩) ≠ SPT_SUCCESS) →
      identifyLoop res buf l =
        (l.take (k + 1), some (l.get ⟨k, hk⟩),
         if smartBit buf then SmartReport.capable else SmartReport.notCapable) := by
  intro l
  induction l with
  | nil => intro k hk; exact absurd hk (by simp)
  | cons b rest ih =>
      intro k hk hs hprev
      cases k with
      | zero =>
          simp only [List.get] at hs
          simp [identifyLoop, hs]
      | succ k =>
          have hb : res b ≠ SPT_SUCCESS := by
            have := hprev 0 (Nat.succ_pos k)
            simpa using this
          have hk2 : k < rest.length := Nat.lt_of_succ_lt_succ hk
          have hs2 : res (rest.get ⟨k, hk2⟩) = SPT_SUCCESS := by simpa using hs
          have hprev2 : ∀ (j : Nat) (hj : j < k),
              res (rest.get ⟨j, hj.trans hk2⟩) ≠ SPT_SUCCESS := by
            intro j hj
            have := hprev (j + 1) (Nat.succ_lt_succ hj)
            simpa using this
          simp [identifyLoop, hb, ih k hk2 hs2 hprev2]

/-- C1: over a 512-byte identify buffer, when some bridge encoding of the
probe succeeds, `Identify` reports SMART-capable exactly when the
SMART-capability bit of the command-set-support field is set and
not-SMART-capable exactly when that bit is clear; when every bridge
encoding fails it reports `unknown` — in particular never `notCapable`
(and the model is a total function, so no crash or abort is possible). -/
theorem identify_smart_report (io : Bridge → IoOutcome) (dataBufferAddr : Nat)
    (buf : List Nat) (hlen : buf.length = 512) :
    ((∃ b ∈ ptOrder, ptResult io dataBufferAddr b = SPT_SUCCESS) →
        ((Identify io dataBufferAddr buf).2.2 = SmartReport.capable ↔
          smartBit buf = true) ∧
        ((Identify io dataBufferAddr buf).2.2 = SmartReport.notCapable ↔
          smartBit buf = false)) ∧
    ((∀ b ∈ ptOrder, ptResult io dataBufferAddr b ≠ SPT_SUCCESS) →
        (Identify io dataBufferAddr buf).2.2 = SmartReport.unknown ∧
        (Identify io dataBufferAddr buf).2.2 ≠ SmartReport.notCapable) := by
  constructor
  · intro h
    have hr := identifyLoop_report_of_success (ptResult io dataBufferAddr) buf ptOrder h
    show ((identifyLoop (ptResult io dataBufferAddr) buf ptOrder).2.2 = _ ↔ _) ∧
      ((identifyLoop (ptResult io dataBufferAddr) buf ptOrder).2.2 = _ ↔ _)
    rw [hr]
    cases hsb : smartBit buf <;> simp [hsb]
  · intro h
    have hr := identifyLoop_all_fail (ptResult io dataBufferAddr) buf ptOrder h
    show (identifyLoop (ptResult io dataBufferAddr) buf ptOrder).2.2 = _ ∧
      (identifyLoop (ptResult io dataBufferAddr) buf ptOrder).2.2 ≠ _
    rw [hr]
    exact ⟨rfl, by simp⟩

/-- C1 witness: with every bridge answering SCSI status 0, the SAT probe
succeeds and the set SMART bit is reported as `capable`; with every bridge
answering SCSI status 1, all five encodings fail and the report is
`unknown`. -/
theorem identify_smart_report_witness :
    bufSmartSet.length = 512 ∧
    (Identify (fun _ => IoOutcome.ok 0) 0 bufSmartSet).2.2 = SmartReport.capable ∧
    (Identify (fun _ => IoOutcome.fail 1 0) 0 bufSmartSet).2.2 = SmartReport.unknown := by
  refine ⟨by decide, ?_, ?_⟩
  · exact ((identify_smart_report (fun _ => IoOutcome.ok 0) 0 bufSmartSet
      (by decide)).1 ⟨Bridge.sat, by decide, by decide⟩).1.mpr (by decide)
  · exact ((identify_smart_report (fun _ => IoOutcome.fail 1 0) 0 bufSmartSet
      (by decide)).2 (by decide)).1

/-- C2 (code bug): the wildcard digit test of `IsHDD` reads `strid[mlen]`
instead of `strid[mlen - 1]`, so the `'#'` position itself is never checked
against `[0-9]`: the model string "ST1" (literal "ST" followed by the digit
1, exactly the documented meaning of table entry "ST#") earns no +10 bonus
(score 3, the digit is sought at index 3, the NUL terminator), while "STX7"
(no digit after "ST") wrongly earns it (score 13). -/
theorem isHDD_wildcard_digit_position :
    IsHDD DRIVE_FIXED 0 0 ("ST1") = 3 ∧ IsHDD DRIVE_FIXED 0 0 ("STX7") = 13 := by
  exact ⟨rfl, rfl⟩

/-- C3 counterexample: the direction resolver does not map
IDENTIFY_PACKET_DEVICE to DataIn (at Features = 0 it returns
`ATA_PASSTHROUGH_DATA_NONE`, refuting the claimed equality). -/
theorem getAtaDirection_identify_packet_not_data_in :
    ¬ GetAtaDirection ATA_IDENTIFY_PACKET_DEVICE 0 = ATA_PASSTHROUGH_DATA_IN := by
  decide

/-- C3 amended: `GetAtaDirection` has no case for IDENTIFY_PACKET_DEVICE
(0xA1), so for every Features sub-code it falls through to the default and
returns `ATA_PASSTHROUGH_DATA_NONE`. -/
theorem getAtaDirection_identify_packet_none (f : Nat) :
    GetAtaDirection ATA_IDENTIFY_PACKET_DEVICE f = ATA_PASSTHROUGH_DATA_NONE := by
  rfl

/-- C4: the probe loop walks the `pt` table in the fixed order SAT,
JMicron, Prolific, SunPlus, Cypress; if the bridge at position `k` is the
first to return `SPT_SUCCESS`, exactly the first `k + 1` encoders are
invoked and that bridge is the one reported; if all five fail, exactly five
attempts are made and no bridge is reported. -/
theorem probe_first_success_and_exhaustion (res : Bridge → Int) (buf : List Nat) :
    (∀ (k : Nat) (hk : k < ptOrder.length),
        res (ptOrder.get ⟨k, hk⟩) = SPT_SUCCESS →
        (∀ (j : Nat) (hj : j < k), res (ptOrder.get ⟨j, hj.trans hk⟩) ≠ SPT_SUCCESS) →
        (identifyLoop res buf ptOrder).1 = ptOrder.take (k + 1) ∧
        (identifyLoop res buf ptOrder).2.1 = some (ptOrder.get ⟨k, hk⟩)) ∧
    ((∀ b ∈ ptOrder, res b ≠ SPT_SUCCESS) →
        (identifyLoop res buf ptOrder).1 = ptOrder ∧
        (identifyLoop res buf ptOrder).1.length = 5 ∧
        (identifyLoop res buf ptOrder).2.1 = none) := by
  constructor
  · intro k hk hs hprev
    rw [identifyLoop_first res buf ptOrder k hk hs hprev]
    exact ⟨rfl, rfl⟩
  · intro h
    rw [identifyLoop_all_fail res buf ptOrder h]
    exact ⟨rfl, by rfl, rfl⟩

/-- C4 witness: when Prolific (position 2) is the first encoder to succeed,
the invoked bridges are exactly SAT, JMicron, Prolific, and Prolific is
reported; when every encoder fails, five attempts are made and none is
reported. -/
theorem probe_first_success_and_exhaustion_witness :
    (identifyLoop (fun b => if b = Bridge.prolific then 0 else 1) [] ptOrder).1 =
      [Bridge.sat, Bridge.jmicron, Bridge.prolific] ∧
    (identifyLoop (fun b => if b = Bridge.prolific then 0 else 1) [] ptOrder).2.1 =
      some Bridge.prolific ∧
    (identifyLoop (fun _ => (1 : Int)) [] ptOrder).1.length = 5 ∧
    (identifyLoop (fun _ => (1 : Int)) [] ptOrder).2.1 = none := by
  have h1 := (probe_first_success_and_exhaustion
      (fun b => if b = Bridge.prolific then 0 else 1) []).1 2 (by decide)
      (by decide) (by decide)
  have h2 := (probe_first_success_and_exhaustion (fun _ => (1 : Int)) []).2 (by decide)
  exact ⟨by rw [h1.1]; decide, by rw [h1.2]; decide, h2.2.1, h2.2.2⟩

/-- C5: `ScsiPassthroughDirect` validates in the fixed order CDB length (0
or more than 16), buffer (address not 16-byte aligned or length above
65535), direction (above the three recognized values 0, 1, 2), extended
CDB opcodes 0x7E/0x7F, then opcodes at or above 0xC0 other than the
JMicron (0xDF) and SunPlus (0xF8) vendor passthrough opcodes; each failure
returns its own distinct error code for every possible device interaction
(so no I/O is performed), and the two vendor opcodes pass validation and
reach the device. -/
theorem scsiPassthroughDirect_validation_order (Cdb : List Nat)
    (CdbLen Direction dataBufferAddr BufLen : Nat) (io : IoOutcome) :
    (CdbLen = 0 ∨ CdbLen > 16 →
        ScsiPassthroughDirect Cdb CdbLen Direction dataBufferAddr BufLen io =
          SPT_ERROR_CDB_LENGTH) ∧
    (¬(CdbLen = 0 ∨ CdbLen > 16) →
        dataBufferAddr % 16 ≠ 0 ∨ BufLen > 0xFFFF →
        ScsiPassthroughDirect Cdb CdbLen Direction dataBufferAddr BufLen io =
          SPT_ERROR_BUFFER) ∧
    (¬(CdbLen = 0 ∨ CdbLen > 16) → dataBufferAddr % 16 = 0 → BufLen ≤ 0xFFFF →
        Direction > SCSI_IOCTL_DATA_UNSPECIFIED →
        ScsiPassthroughDirect Cdb CdbLen Direction dataBufferAddr BufLen io =
          SPT_ERROR_DIRECTION) ∧
    (¬(CdbLen = 0 ∨ CdbLen > 16) → dataBufferAddr % 16 = 0 → BufLen ≤ 0xFFFF →
        Direction ≤ SCSI_IOCTL_DATA_UNSPECIFIED →
        Cdb.headD 0 = 0x7e ∨ Cdb.headD 0 = 0x7f →
        ScsiPassthroughDirect Cdb CdbLen Direction dataBufferAddr BufLen io =
          SPT_ERROR_EXTENDED_CDB) ∧
    (¬(CdbLen = 0 ∨ CdbLen > 16) → dataBufferAddr % 16 = 0 → BufLen ≤ 0xFFFF →
        Direction ≤ SCSI_IOCTL_DATA_UNSPECIFIED →
        ¬(Cdb.headD 0 = 0x7e ∨ Cdb.headD 0 = 0x7f) →
        Cdb.headD 0 ≥ 0xc0 → Cdb.headD 0 ≠ USB_JMICRON_ATA_PASSTHROUGH →
        Cdb.headD 0 ≠ USB_SUNPLUS_ATA_PASSTHROUGH →
        ScsiPassthroughDirect Cdb CdbLen Direction dataBufferAddr BufLen io =
          SPT_ERROR_CDB_OPCODE) ∧
    (¬(CdbLen = 0 ∨ CdbLen > 16) → dataBufferAddr % 16 = 0 → BufLen ≤ 0xFFFF →
        Direction ≤ SCSI_IOCTL_DATA_UNSPECIFIED →
        Cdb.headD 0 = USB_JMICRON_ATA_PASSTHROUGH ∨
          Cdb.headD 0 = USB_SUNPLUS_ATA_PASSTHROUGH →
        ScsiPassthroughDirect Cdb CdbLen Direction dataBufferAddr BufLen io =
          ioComplete io) ∧
    (SPT_ERROR_CDB_LENGTH ≠ SPT_ERROR_BUFFER ∧
     SPT_ERROR_CDB_LENGTH ≠ SPT_ERROR_DIRECTION ∧
     SPT_ERROR_CDB_LENGTH ≠ SPT_ERROR_EXTENDED_CDB ∧
     SPT_ERROR_CDB_LENGTH ≠ SPT_ERROR_CDB_OPCODE ∧
     SPT_ERROR_BUFFER ≠ SPT_ERROR_DIRECTION ∧
     SPT_ERROR_BUFFER ≠ SPT_ERROR_EXTENDED_CDB ∧
     SPT_ERROR_BUFFER ≠ SPT_ERROR_CDB_OPCODE ∧
     SPT_ERROR_DIRECTION ≠ SPT_ERROR_EXTENDED_CDB ∧
     SPT_ERROR_DIRECTION ≠ SPT_ERROR_CDB_OPCODE ∧
     SPT_ERROR_EXTENDED_CDB ≠ SPT_ERROR_CDB_OPCODE) := by
  refine ⟨?_, ?_, ?_, ?_, ?_, ?_, by decide⟩
  · intro h
    simp only [ScsiPassthroughDirect]
    rw [if_pos h]
  · intro h1 h2
    simp only [ScsiPassthroughDirect]
    rw [if_neg h1, if_pos h2]
  · intro h1 ha hb hd
    simp only [ScsiPassthroughDirect]
    rw [if_neg h1, if_neg (by omega), if_pos hd]
  · intro h1 ha hb hd hop
    simp only [ScsiPassthroughDirect]
    rw [if_neg h1, if_neg (by omega), if_neg (by omega), if_pos hop]
  · intro h1 ha hb hd h7 hge hj hs
    simp only [ScsiPassthroughDirect]
    rw [if_neg h1, if_neg (by omega), if_neg (by omega), if_neg h7,
      if_pos ⟨hge, hj, hs⟩]
  · intro h1 ha hb hd hvend
    simp only [ScsiPassthroughDirect]
    rw [if_neg h1, if_neg (by omega), if_neg (by omega)]
    rcases hvend with h | h
    · rw [if_neg (by rw [h]; decide), if_neg (by rw [h]; decide)]
    · rw [if_neg (by rw [h]; decide), if_neg (by rw [h]; decide)]

/-- C5 witness: one concrete request per validation outcome, including the
two accepted vendor opcodes reaching the device and completing with SCSI
status 0. -/
theorem scsiPassthroughDirect_validation_order_witness :
    ScsiPassthroughDirect [0x12] 0 1 0 512 (IoOutcome.ok 0) = SPT_ERROR_CDB_LENGTH ∧
    ScsiPassthroughDirect [0x12] 6 1 8 512 (IoOutcome.ok 0) = SPT_ERROR_BUFFER ∧
    ScsiPassthroughDirect [0x12] 6 3 0 512 (IoOutcome.ok 0) = SPT_ERROR_DIRECTION ∧
    ScsiPassthroughDirect [0x7e] 6 1 0 512 (IoOutcome.ok 0) = SPT_ERROR_EXTENDED_CDB ∧
    ScsiPassthroughDirect [0xc1] 6 1 0 512 (IoOutcome.ok 0) = SPT_ERROR_CDB_OPCODE ∧
    ScsiPassthroughDirect [0xdf] 6 1 0 512 (IoOutcome.ok 0) = SPT_SUCCESS ∧
    ScsiPassthroughDirect [0xf8] 6 1 0 512 (IoOutcome.ok 0) = SPT_SUCCESS := by
  refine ⟨?_, ?_, ?_, ?_, ?_, ?_, ?_⟩
  · exact (scsiPassthroughDirect_validation_order [0x12] 0 1 0 512
      (IoOutcome.ok 0)).1 (by omega)
  · exact (scsiPassthroughDirect_validation_order [0x12] 6 1 8 512
      (IoOutcome.ok 0)).2.1 (by omega) (by omega)
  · exact (scsiPassthroughDirect_validation_order [0x12] 6 3 0 512
      (IoOutcome.ok 0)).2.2.1 (by omega) (by omega) (by omega) (by decide)
  · exact (scsiPassthroughDirect_validation_order [0x7e] 6 1 0 512
      (IoOutcome.ok 0)).2.2.2.1 (by omega) (by omega) (by omega) (by decide)
      (by decide)
  · exact (scsiPassthroughDirect_validation_order [0xc1] 6 1 0 512
      (IoOutcome.ok 0)).2.2.2.2.1 (by omega) (by omega) (by omega) (by decide)
      (by decide) (by decide) (by decide) (by decide)
  · rw [(scsiPassthroughDirect_validation_order [0xdf] 6 1 0 512
      (IoOutcome.ok 0)).2.2.2.2.2.1 (by omega) (by omega) (by omega) (by decide)
      (by decide)]
    decide
  · rw [(scsiPassthroughDirect_validation_order [0xf8] 6 1 0 512
      (IoOutcome.ok 0)).2.2.2.2.2.1 (by omega) (by omega) (by omega) (by decide)
      (by decide)]
    decide

/-- C6: for buffers of at most 65535 bytes, `SatAtaPassthrough` fails with
the buffer-format error before any I/O whenever the buffer length is not a
multiple of 512, and otherwise sends a 12-byte CDB whose opcode byte is
0xA1, whose protocol field (bits 1-7 of byte 1) is 3 with no data
transferred, 4 for data-in and 5 for data-out, whose transfer-length
specifier (low 2 bits of byte 2) selects the sector-count field (value 2)
exactly when data is transferred, whose sector-count byte 4 is the buffer
length divided by 512, and whose Features, LBA low/mid/high, device and
ATA opcode bytes are embedded directly. -/
theorem satAtaPassthrough_cdb_layout (Command : ATA_PASSTHROUGH_CMD)
    (dataBufferAddr BufLen : Nat) (io : IoOutcome) (hle : BufLen ≤ 0xFFFF) :
    (BufLen % 512 ≠ 0 →
        SatAtaPassthrough Command dataBufferAddr BufLen io = SPT_ERROR_BUFFER) ∧
    (BufLen % 512 = 0 →
        SatAtaPassthrough Command dataBufferAddr BufLen io =
          ScsiPassthroughDirect (satCdb Command BufLen) 12
            (GetAtaDirection Command.AtaCmd Command.Features) dataBufferAddr
            BufLen io) ∧
    (satCdb Command BufLen).length = 12 ∧
    (satCdb Command BufLen).headD 0 = SAT_ATA_PASSTHROUGH_12 ∧
    (BufLen = 0 ∨ GetAtaDirection Command.AtaCmd Command.Features =
        ATA_PASSTHROUGH_DATA_NONE →
      (satCdb Command BufLen).getD 1 0 >>> 1 = 3 ∧
      (satCdb Command BufLen).getD 2 0 % 4 = 0) ∧
    (BufLen ≠ 0 → GetAtaDirection Command.AtaCmd Command.Features =
        ATA_PASSTHROUGH_DATA_IN →
      (satCdb Command BufLen).getD 1 0 >>> 1 = 4 ∧
      (satCdb Command BufLen).getD 2 0 % 4 = 2) ∧
    (BufLen ≠ 0 → GetAtaDirection Command.AtaCmd Command.Features =
        ATA_PASSTHROUGH_DATA_OUT →
      (satCdb Command BufLen).getD 1 0 >>> 1 = 5 ∧
      (satCdb Command BufLen).getD 2 0 % 4 = 2) ∧
    (satCdb Command BufLen).getD 4 0 = BufLen / 512 ∧
    (satCdb Command BufLen).getD 3 0 = Command.Features ∧
    (satCdb Command BufLen).getD 5 0 = Command.Lba_low ∧
    (satCdb Command BufLen).getD 6 0 = Command.Lba_mid ∧
    (satCdb Command BufLen).getD 7 0 = Command.Lba_high ∧
    (satCdb Command BufLen).getD 8 0 = Command.Device ∧
    (satCdb Command BufLen).getD 9 0 = Command.AtaCmd := by
  refine ⟨?_, ?_, rfl, rfl, ?_, ?_, ?_, ?_, rfl, rfl, rfl, rfl, rfl, rfl⟩
  · intro h
    simp only [SatAtaPassthrough]
    rw [if_pos h]
  · intro h
    simp only [SatAtaPassthrough]
    rw [if_neg (by omega)]
  · intro h
    rcases h with h | h
    · subst h
      simp [satCdb]
    · simp [satCdb, h, ATA_PASSTHROUGH_DATA_NONE, ATA_PASSTHROUGH_DATA_IN,
        ATA_PASSTHROUGH_DATA_OUT, SCSI_IOCTL_DATA_UNSPECIFIED, SCSI_IOCTL_DATA_IN,
        SCSI_IOCTL_DATA_OUT]
  · intro h0 h
    simp [satCdb, h0, h, ATA_PASSTHROUGH_DATA_NONE, ATA_PASSTHROUGH_DATA_IN,
      ATA_PASSTHROUGH_DATA_OUT, SCSI_IOCTL_DATA_UNSPECIFIED, SCSI_IOCTL_DATA_IN,
      SCSI_IOCTL_DATA_OUT]
  · intro h0 h
    simp [satCdb, h0, h, ATA_PASSTHROUGH_DATA_NONE, ATA_PASSTHROUGH_DATA_IN,
      ATA_PASSTHROUGH_DATA_OUT, SCSI_IOCTL_DATA_UNSPECIFIED, SCSI_IOCTL_DATA_IN,
      SCSI_IOCTL_DATA_OUT]
  · show (BufLen >>> 9) % 256 = BufLen / 512
    rw [Nat.shiftRight_eq_div_pow]
    norm_num
    omega

/-- C6 witness: a 100-byte buffer is rejected before I/O; the IDENTIFY
DEVICE command with a 512-byte buffer yields protocol 4 (PIO data-in),
transfer-length specifier 2 and sector count 1. -/
theorem satAtaPassthrough_cdb_layout_witness :
    SatAtaPassthrough identCommand 0 100 (IoOutcome.ok 0) = SPT_ERROR_BUFFER ∧
    (satCdb identCommand 512).getD 1 0 >>> 1 = 4 ∧
    (satCdb identCommand 512).getD 2 0 % 4 = 2 ∧
    (satCdb identCommand 512).getD 4 0 = 1 := by
  refine ⟨?_, ?_, ?_, ?_⟩
  · exact (satAtaPassthrough_cdb_layout identCommand 0 100 (IoOutcome.ok 0)
      (by omega)).1 (by omega)
  · exact ((satAtaPassthrough_cdb_layout identCommand 0 512 (IoOutcome.ok 0)
      (by omega)).2.2.2.2.2.1 (by omega) (by decide)).1
  · exact ((satAtaPassthrough_cdb_layout identCommand 0 512 (IoOutcome.ok 0)
      (by omega)).2.2.2.2.2.1 (by omega) (by decide)).2
  · rw [(satAtaPassthrough_cdb_layout identCommand 0 512 (IoOutcome.ok 0)
      (by omega)).2.2.2.2.2.2.2.1]

/-- C7: the direction resolver maps (SMART, SMART_STATUS) and (SMART,
SMART_WRITE_LOG_SECTOR) to DataOut, (SMART, any other Features) to DataIn,
DATA_SET_MANAGEMENT to DataOut, IDENTIFY_DEVICE and READ_LOG_EXT to
DataIn, and every opcode outside the mapped set to None; it is a total
function with no error case. -/
theorem getAtaDirection_resolution (f op : Nat) :
    GetAtaDirection ATA_SMART_CMD ATA_SMART_STATUS = ATA_PASSTHROUGH_DATA_OUT ∧
    GetAtaDirection ATA_SMART_CMD ATA_SMART_WRITE_LOG_SECTOR =
      ATA_PASSTHROUGH_DATA_OUT ∧
    (f ≠ ATA_SMART_STATUS → f ≠ ATA_SMART_WRITE_LOG_SECTOR →
      GetAtaDirection ATA_SMART_CMD f = ATA_PASSTHROUGH_DATA_IN) ∧
    GetAtaDirection ATA_DATA_SET_MANAGEMENT f = ATA_PASSTHROUGH_DATA_OUT ∧
    GetAtaDirection ATA_IDENTIFY_DEVICE f = ATA_PASSTHROUGH_DATA_IN ∧
    GetAtaDirection ATA_READ_LOG_EXT f = ATA_PASSTHROUGH_DATA_IN ∧
    (op ≠ ATA_IDENTIFY_DEVICE → op ≠ ATA_READ_LOG_EXT → op ≠ ATA_SMART_CMD →
      op ≠ ATA_DATA_SET_MANAGEMENT →
      GetAtaDirection op f = ATA_PASSTHROUGH_DATA_NONE) := by
  refine ⟨by decide, by decide, ?_, by rfl, by rfl, by rfl, ?_⟩
  · intro h1 h2
    simp only [ATA_SMART_STATUS, ATA_SMART_WRITE_LOG_SECTOR] at h1 h2
    simp [GetAtaDirection, ATA_SMART_CMD, ATA_SMART_STATUS, ATA_SMART_WRITE_LOG_SECTOR,
      ATA_IDENTIFY_DEVICE, ATA_READ_LOG_EXT, ATA_PASSTHROUGH_DATA_IN, SCSI_IOCTL_DATA_IN,
      h1, h2]
  · intro h1 h2 h3 h4
    simp only [ATA_IDENTIFY_DEVICE, ATA_READ_LOG_EXT, ATA_SMART_CMD,
      ATA_DATA_SET_MANAGEMENT] at h1 h2 h3 h4
    simp [GetAtaDirection, ATA_SMART_CMD, ATA_IDENTIFY_DEVICE, ATA_READ_LOG_EXT,
      ATA_DATA_SET_MANAGEMENT, ATA_PASSTHROUGH_DATA_NONE, SCSI_IOCTL_DATA_UNSPECIFIED,
      h1, h2, h3, h4]

/-- C7 witness: SMART READ DATA (Features 0xD0) resolves to DataIn and the
unmapped opcode 0x25 resolves to None. -/
theorem getAtaDirection_resolution_witness :
    GetAtaDirection 0xb0 0xd0 = 1 ∧ GetAtaDirection 0x25 0xd0 = 2 := by
  constructor
  · exact (getAtaDirection_resolution 0xd0 0x25).2.2.1 (by decide) (by decide)
  · exact (getAtaDirection_resolution 0xd0 0x25).2.2.2.2.2.2 (by decide) (by decide)
      (by decide) (by decide)

/-- C8: for buffers of at most 65535 bytes, the JMicron/Prolific CDB holds
the vendor opcode 0xDF, the mode byte 0x00 exactly for a data-out transfer
with a nonzero buffer and 0x10 otherwise, the 16-bit buffer length split
over bytes 3 and 4, Features, the sector count (buffer length divided by
512), the LBA bytes, the device byte, the ATA opcode and the fixed trailer
bytes 0x06, 0x7B; the JMicron encoder sends it with CDB length 14 while
the Prolific encoder sends the same CDB trimmed of its last 2 bytes with
length 12. -/
theorem jmpl_cdb_layout (Command : ATA_PASSTHROUGH_CMD)
    (dataBufferAddr BufLen : Nat) (io : IoOutcome) (hle : BufLen ≤ 0xFFFF) :
    jmplCdb Command BufLen =
      [USB_JMICRON_ATA_PASSTHROUGH,
       if BufLen ≠ 0 ∧ GetAtaDirection Command.AtaCmd Command.Features =
           ATA_PASSTHROUGH_DATA_OUT then 0x00 else 0x10,
       0,
       BufLen / 256,
       BufLen % 256,
       Command.Features,
       BufLen / 512,
       Command.Lba_low, Command.Lba_mid, Command.Lba_high,
       Command.Device, Command.AtaCmd,
       0x06, 0x7b] ∧
    (jmplCdb Command BufLen).take 12 ++ [0x06, 0x7b] = jmplCdb Command BufLen ∧
    UsbJmicronAtaPassthrough Command dataBufferAddr BufLen io =
      ScsiPassthroughDirect (jmplCdb Command BufLen) 14
        (GetAtaDirection Command.AtaCmd Command.Features) dataBufferAddr BufLen io ∧
    UsbProlificAtaPassthrough Command dataBufferAddr BufLen io =
      ScsiPassthroughDirect (jmplCdb Command BufLen) 12
        (GetAtaDirection Command.AtaCmd Command.Features) dataBufferAddr BufLen io := by
  have h3 : (BufLen >>> 8) % 256 = BufLen / 256 := by
    rw [Nat.shiftRight_eq_div_pow]
    norm_num
    omega
  have h6 : (BufLen >>> 9) % 256 = BufLen / 512 := by
    rw [Nat.shiftRight_eq_div_pow]
    norm_num
    omega
  refine ⟨?_, rfl, rfl, rfl⟩
  simp only [jmplCdb, SECTOR_SIZE_SHIFT_BIT, h3, h6]

/-- C8 witness: the IDENTIFY DEVICE command (data-in) with a 512-byte
buffer yields the concrete 14-byte CDB with mode byte 0x10, split length
0x02 0x00, sector count 1 and trailer 0x06 0x7B; a SMART WRITE LOG SECTOR
command (data-out) yields mode byte 0x00. -/
theorem jmpl_cdb_layout_witness :
    jmplCdb identCommand 512 =
      [0xdf, 0x10, 0, 2, 0, 0, 1, 0, 0, 0, 0, 0xec, 0x06, 0x7b] ∧
    (jmplCdb (ATA_PASSTHROUGH_CMD.mk 0xb0 0xd6 0 0 0 0) 512).getD 1 0 = 0 := by
  constructor
  · rw [(jmpl_cdb_layout identCommand 0 512 (IoOutcome.ok 0) (by omega)).1]
    decide
  · rw [(jmpl_cdb_layout (ATA_PASSTHROUGH_CMD.mk 0xb0 0xd6 0 0 0 0) 0 512
      (IoOutcome.ok 0) (by omega)).1]
    decide

/-- C9: for any product ID, `IsHDD` scores a fixed Seagate drive with
model "ST1000DM003" and VID 0x0BC2 as 23 (3 fixed + 10 string + 10 VID), a
removable drive with model "Cruzer Blade" and VID 0x0951 as 0, and a fixed
drive with model "SAMSUNG HD103SJ" and VID 0 as 13 (3 + 10 string). -/
theorem isHDD_score_examples (pid : Nat) :
    IsHDD DRIVE_FIXED 0x0bc2 pid ("ST1000DM003") = 23 ∧
    IsHDD DRIVE_REMOVABLE 0x0951 pid ("Cruzer Blade") = 0 ∧
    IsHDD DRIVE_FIXED 0x0000 pid ("SAMSUNG HD103SJ") = 13 := by
  refine ⟨?_, ?_, ?_⟩ <;> rfl

/-- C10: the score returned by `IsHDD` never depends on the `pid`
argument. -/
theorem isHDD_pid_independent (drive_type vid p1 p2 : Nat) (strid : String) :
    IsHDD drive_type vid p1 strid = IsHDD drive_type vid p2 strid := by
  rfl

end Smart
